import Mathlib

/-!
Shallow embedding of the core of the EnglishApp2 vocabulary trainer:
the review scheduler (`src/App.tsx`: `startSession`, `handleSessionComplete`),
the study-session controller (`src/views/StudySession.tsx`: typing mode and
pairing/match mode), and the image-generation orchestrator
(`src/services/gemini.ts`: `queueImageRequest`, `stringToHash`,
`generateImage`, `_generateImageUnsafe`, `checkTranslation`).

Conventions of the embedding:
- JS timestamps (`Date.now()`) are natural numbers of milliseconds; each
  handler receives the current time `now` as an explicit argument.
- JS strings are Lean `String`s; the JS string primitives used by the code
  (`toLowerCase`, `trim`, `startsWith`, `includes`, `charCodeAt`,
  `encodeURIComponent`) are re-implemented below on `List Char` so that they
  compute by kernel reduction.  `charCodeAt` is modelled by `Char.toNat`,
  which agrees with JS UTF-16 code units on the Basic Multilingual Plane
  (all strings occurring in the program are in the BMP).
- Network calls (provider adapters) are modelled as oracle inputs: each
  image request carries the outcome of its (at most one) adapter call as an
  `Except ProviderFailure String` value, and the `Math.random()` seed used
  for forced regeneration as a `Nat`.
- `localStorage` is modelled as an explicit association list threaded
  through the functions that read and write it.
-/

/-! ## JS string primitives -/

/-- JS `String.prototype.toLowerCase`, modelled per-character. -/
def jsToLower (s : String) : String := ⟨s.data.map Char.toLower⟩

/-- Whitespace test used by the model of JS `trim`. -/
def wsChar (c : Char) : Bool := c.isWhitespace

/-- JS `String.prototype.trim`: drop whitespace at both ends. -/
def jsTrim (s : String) : String :=
  ⟨((s.data.dropWhile wsChar).reverse.dropWhile wsChar).reverse⟩

/-- JS `String.prototype.startsWith`. -/
def jsStartsWith (s pat : String) : Bool := List.isPrefixOf pat.data s.data

/-- Helper for `jsIncludes`: does `pat` occur at some position of the list? -/
def infixAt : List Char → List Char → Bool
  | pat, [] => List.isPrefixOf pat []
  | pat, c :: rest => List.isPrefixOf pat (c :: rest) || infixAt pat rest

/-- JS `String.prototype.includes`. -/
def jsIncludes (s pat : String) : Bool := infixAt pat.data s.data

/-- JS `String.prototype.slice(n)` (drop the first `n` UTF-16 units). -/
def jsDrop (s : String) (n : Nat) : String := ⟨s.data.drop n⟩

/-- Hexadecimal digit as used by `encodeURIComponent` (uppercase). -/
def hexDigitChar (n : Nat) : Char :=
  if n < 10 then Char.ofNat (48 + n) else Char.ofNat (55 + n)

/-- Percent-encoding of one byte. -/
def percentByte (b : Nat) : List Char := ['%', hexDigitChar (b / 16), hexDigitChar (b % 16)]

/-- UTF-8 bytes of one Unicode scalar value. -/
def utf8Bytes (c : Char) : List Nat :=
  let n := c.toNat
  if n < 128 then [n]
  else if n < 2048 then [192 + n / 64, 128 + n % 64]
  else if n < 65536 then [224 + n / 4096, 128 + (n / 64) % 64, 128 + n % 64]
  else [240 + n / 262144, 128 + (n / 4096) % 64, 128 + (n / 64) % 64, 128 + n % 64]

/-- Characters left unescaped by JS `encodeURIComponent`:
ASCII alphanumerics and `- _ . ! ~ * ( )` and the apostrophe (code 39). -/
def uriUnreserved (c : Char) : Bool :=
  c.isAlpha || c.isDigit ||
  c == '-' || c == '_' || c == '.' || c == '!' || c == '~' || c == '*' ||
  c.toNat == 39 || c == '(' || c == ')'

/-- JS `encodeURIComponent`. -/
def encodeURIComponent (s : String) : String :=
  ⟨s.data.foldr
    (fun c acc =>
      (if uriUnreserved c then [c] else (utf8Bytes c).foldr (fun b a => percentByte b ++ a) []) ++ acc)
    []⟩

/-! ## Data model (`src/types.ts`) -/

/-- `WordStatus` from `src/types.ts`. -/
inductive WordStatus where
  | new
  | learning
  | learned
deriving DecidableEq, Repr

/-- `LanguageLevel` from `src/types.ts`. -/
inductive LanguageLevel where
  | a1 | a2 | b1 | b2 | c1 | c2
deriving DecidableEq, Repr

/-- `StudySource` from `src/types.ts`. -/
inductive StudySource where
  | all
  | manual
  | aiGenerated
deriving DecidableEq, Repr

/-- The `Word` record from `src/types.ts` (the vocabulary item). -/
structure Word where
  id : String
  polish : String
  english : String
  category : String
  level : LanguageLevel
  status : WordStatus
  nextReview : Nat
  lastReview : Option Nat
  attempts : Nat
  correct : Nat
  imageUrl : Option String
  exampleSentence : Option String
  aiGenerated : Bool
deriving DecidableEq, Repr

/-! ## Review scheduler (`src/App.tsx`) -/

/-- The per-item rescheduling update, as written inside
`handleSessionComplete` (`src/App.tsx` lines 84-111).  `now` is the value of
`Date.now()` at update time. -/
def applyOutcome (now : Nat) (word : Word) (isCorrect : Bool) : Word :=
  if isCorrect then
    let days := if word.correct = 0 then 1 else if word.correct = 1 then 3 else 7
    let nextReview := now + days * 24 * 60 * 60 * 1000
    let status := if word.correct > 3 then WordStatus.learned else WordStatus.learning
    { word with
        correct := word.correct + 1
        attempts := word.attempts + 1
        lastReview := some now
        nextReview := nextReview
        status := status }
  else
    { word with
        correct := 0
        attempts := word.attempts + 1
        lastReview := some now
        nextReview := now + 10 * 60 * 1000
        status := WordStatus.learning }

/-- `handleSessionComplete` (`src/App.tsx` lines 81-120): apply each session
outcome to the matching item of the collection. -/
def handleSessionComplete (now : Nat) (words : List Word)
    (results : List (String × Bool)) : List Word :=
  words.map fun word =>
    match results.find? (fun r => r.1 == word.id) with
    | some res => applyOutcome now word res.2
    | none => word

/-- The rescheduling update exactly as the claim words it: on a correct
outcome the streak is incremented first and the status check `> 3` is made
on the *incremented* streak. -/
def applyOutcomeClaimed (now : Nat) (word : Word) (isCorrect : Bool) : Word :=
  if isCorrect then
    let delayDays := if word.correct = 0 then 1 else if word.correct = 1 then 3 else 7
    let newStreak := word.correct + 1
    { word with
        nextReview := now + delayDays * 86400000
        correct := newStreak
        status := if newStreak > 3 then WordStatus.learned else WordStatus.learning
        attempts := word.attempts + 1
        lastReview := some now }
  else
    { word with
        nextReview := now + 10 * 60000
        correct := 0
        status := WordStatus.learning
        attempts := word.attempts + 1
        lastReview := some now }

/-- The rescheduling update as amended: the status check is made on the
*pre-update* streak (`> 3`), i.e. the item becomes Learned exactly when the
incremented streak exceeds 4. -/
def applyOutcomeAmended (now : Nat) (word : Word) (isCorrect : Bool) : Word :=
  if isCorrect then
    let delayDays := if word.correct = 0 then 1 else if word.correct = 1 then 3 else 7
    let newStreak := word.correct + 1
    { word with
        nextReview := now + delayDays * 86400000
        correct := newStreak
        status := if newStreak > 4 then WordStatus.learned else WordStatus.learning
        attempts := word.attempts + 1
        lastReview := some now }
  else
    { word with
        nextReview := now + 10 * 60000
        correct := 0
        status := WordStatus.learning
        attempts := word.attempts + 1
        lastReview := some now }

/-- A concrete item with a pre-update streak of exactly 3. -/
def streakThreeWord : Word :=
  { id := "w1", polish := "dom", english := "house", category := "dom"
    level := LanguageLevel.a1, status := WordStatus.learning
    nextReview := 0, lastReview := some 0, attempts := 3, correct := 3
    imageUrl := none, exampleSentence := none, aiGenerated := false }

/-! ## Due-item selection (`src/App.tsx`, `startSession`) -/

/-- The provenance filter of `startSession` (`src/App.tsx` lines 45-50). -/
def filterBySource (src : StudySource) (words : List Word) : List Word :=
  match src with
  | StudySource.manual => words.filter (fun w => !w.aiGenerated)
  | StudySource.aiGenerated => words.filter (fun w => w.aiGenerated)
  | StudySource.all => words

/-- The due test of `startSession` (`src/App.tsx` line 53):
`w.nextReview <= now || w.status === WordStatus.New`. -/
def isDue (now : Nat) (w : Word) : Bool :=
  decide (w.nextReview ≤ now) || w.status == WordStatus.new

/-- The comparison key of the sort in `startSession`
(`.sort((a, b) => a.nextReview - b.nextReview)`, a stable ascending sort). -/
def byNextReview (a b : Word) : Prop := a.nextReview ≤ b.nextReview

instance : DecidableRel byNextReview := fun a b => Nat.decLe a.nextReview b.nextReview

/-- The due-selection of `startSession` (`src/App.tsx` lines 44-55): filter by
source, filter by due-ness, sort ascending by `nextReview` (JS array sort is
stable, modelled by a stable insertion sort), take the first 10. -/
def selectDue (now : Nat) (src : StudySource) (words : List Word) : List Word :=
  (List.insertionSort byNextReview
    ((filterBySource src words).filter (isDue now))).take 10

/-- The due test as the claim words it: `status == New OR nextReviewAt <= now`. -/
def isDueClaimed (now : Nat) (w : Word) : Bool :=
  w.status == WordStatus.new || decide (w.nextReview ≤ now)

/-- Due-selection as the claim words it: the source-filtered items satisfying
`status == New or nextReviewAt <= now`, sorted ascending by `nextReviewAt`,
truncated to the first 10. -/
def selectDueClaimed (now : Nat) (src : StudySource) (words : List Word) : List Word :=
  (List.insertionSort byNextReview
    ((filterBySource src words).filter (isDueClaimed now))).take 10

/-! ## Typed-answer mode (`src/views/StudySession.tsx`, `checkTyping`;
`src/services/gemini.ts`, `checkTranslation`) -/

/-- The structured result of `geminiService.checkTranslation`. -/
structure CheckResult where
  isCorrect : Bool
  feedback : String
deriving DecidableEq, Repr

/-- Sentinel returned by `checkTranslation` when no Gemini API key is
configured (`src/services/gemini.ts` line 573). -/
def aiErrorNoKey : CheckResult := ⟨false, "AI_ERROR (No Key)"⟩

/-- Sentinel returned by `checkTranslation` when the Gemini call throws
(`src/services/gemini.ts` line 585). -/
def aiErrorCaught : CheckResult := ⟨false, "AI_ERROR"⟩

/-- Sentinel returned by `checkTranslation` when the custom provider throws
(`src/services/gemini.ts` line 555). -/
def customApiError : CheckResult := ⟨false, "Błąd Custom API"⟩

/-- Text provider branches of `checkTranslation` dispatch
(`src/services/gemini.ts` lines 551-586): the custom branch, the Perplexity
branch, and the default Gemini path (also taken by the `free` provider and
by `perplexity` without an API key). -/
inductive TextProvider where
  | custom
  | perplexity
  | geminiOrFree
deriving DecidableEq, Repr

/-- The default Gemini path of `checkTranslation`
(`src/services/gemini.ts` lines 572-585): `aiErrorNoKey` without an
environment API key, otherwise the backend result, with a thrown call
mapped to `aiErrorCaught`.  Never rejects. -/
def geminiDefaultCheck (hasEnvApiKey : Bool) (backend : Except Unit CheckResult) :
    CheckResult :=
  if !hasEnvApiKey then aiErrorNoKey
  else
    match backend with
    | Except.ok r => r
    | Except.error _ => aiErrorCaught

/-- `checkTranslation` (`src/services/gemini.ts` lines 547-586).  Network
calls are oracle inputs: `backend` is the outcome of the primary provider
call of the branch taken (`Except.error` = the call threw or its parse
failed), `fallback` the outcome of the in-catch Perplexity retry fetch.
A parsed JSON object is modelled by its `isCorrect`/`feedback` fields as the
caller reads them (an absent field reads as `false` / not `"AI_ERROR"`, as
for the Perplexity `translateWord` result).  The result is
`Except Unit CheckResult`: the custom branch and the default Gemini path
catch every failure and always return a sentinel, but in the Perplexity
branch (taken when the provider is `perplexity` and a Perplexity key is
configured) the catch block performs a second, unguarded fetch-and-parse,
so a failure of both calls rejects the promise (`Except.error`), which
propagates to the caller. -/
def checkTranslation (provider : TextProvider) (hasEnvApiKey hasPerplexityKey : Bool)
    (backend fallback : Except Unit CheckResult) : Except Unit CheckResult :=
  match provider with
  | TextProvider.custom =>
      match backend with
      | Except.ok r => Except.ok r
      | Except.error _ => Except.ok customApiError
  | TextProvider.perplexity =>
      if hasPerplexityKey then
        match backend with
        | Except.ok r => Except.ok r
        | Except.error _ => fallback
      else Except.ok (geminiDefaultCheck hasEnvApiKey backend)
  | TextProvider.geminiOrFree =>
      Except.ok (geminiDefaultCheck hasEnvApiKey backend)

/-- The normalisation applied by `checkTyping` to both the learner input and
the target: `.trim().toLowerCase()`. -/
def cleanAnswer (s : String) : String := jsToLower (jsTrim s)

/-- `checkTyping` (`src/views/StudySession.tsx` lines 300-324), reduced to
the recorded outcome.  `verify` is the settled result of the awaited
`geminiService.checkTranslation` call.  Returns
`some (outcome, consultedVerification)` when `handleNext` is reached
(`outcome` is the boolean it records, `consultedVerification` whether the
verification operation was awaited), and `none` when the awaited call
rejected: `checkTyping` has no try/catch and its callers attach no catch
handler, so the rejection escapes and no outcome is ever recorded. -/
def checkTyping (input target : String) (verify : Except Unit CheckResult) :
    Option (Bool × Bool) :=
  if cleanAnswer input == cleanAnswer target then some (true, false)
  else
    match verify with
    | Except.error _ => none
    | Except.ok v =>
        if v.feedback == "AI_ERROR" then some (false, true)
        else some (v.isCorrect, true)

/-! ## Image pipeline (`src/services/gemini.ts`) -/

/-- `imageProvider` values from `src/types.ts`. -/
inductive ImageProvider where
  | auto
  | pollinations
  | hfSpace
  | custom
  | gemini
  | deepai
  | huggingface
deriving DecidableEq, Repr

/-- `visualStyle` values from `src/types.ts`. -/
inductive VisualStyle where
  | minimalist
  | realistic
  | cartoon
  | pixel
  | cyberpunk
deriving DecidableEq, Repr

/-- Failure categories a provider adapter can report (the code reacts to
HTTP 401/402 explicitly in the Hugging Face branch and treats every thrown
or non-ok response the same way). -/
inductive ProviderFailure where
  | rateLimited
  | unauthorized
  | other
deriving DecidableEq, Repr

/-- The slice of `Settings` (`src/types.ts`) read by the image pipeline.
`envApiKey`/`envHuggingFaceApiKey` model `process.env.API_KEY` and
`process.env.HUGGING_FACE_API_KEY` (empty string = absent); fields of
`Settings` never read by the image functions are omitted. -/
structure ImgSettings where
  imageProvider : ImageProvider
  visualStyle : VisualStyle
  pollinationsApiKey : String
  customApiKey : String
  customApiBase : String
  huggingFaceApiKey : String
  envApiKey : String
  envHuggingFaceApiKey : String
deriving DecidableEq, Repr

/-- Oracle inputs of one image request: the outcome of its (at most one)
adapter network call, and the `Math.floor(Math.random() * 1000000)` seed
used when regeneration is forced. -/
structure ImgEnv where
  adapter : Except ProviderFailure String
  randomSeed : Nat
deriving Repr

/-- JS 32-bit signed integer truncation (`| 0`, and the wrap of `<< 5`). -/
def toInt32 (x : Int) : Int := (x + 2 ^ 31) % 2 ^ 32 - 2 ^ 31

/-- `stringToHash` (`src/services/gemini.ts` lines 30-39):
`hash = ((hash << 5) - hash) + charCodeAt(i); hash |= 0`, then `Math.abs`. -/
def stringToHash (s : String) : Nat :=
  (s.data.foldl (fun h c => toInt32 (toInt32 (h * 32) - h + c.toNat)) 0).natAbs

/-- `styleMap` (`src/services/gemini.ts` lines 389-395). -/
def styleMap : VisualStyle → String
  | VisualStyle.minimalist =>
      "minimalist vector illustration, flat design, white background, high quality"
  | VisualStyle.realistic =>
      "highly detailed, photorealistic, 4k, cinematic lighting, sharp focus"
  | VisualStyle.cartoon =>
      "vibrant cartoon style, disney pixar style, 3d render, smooth lighting"
  | VisualStyle.pixel =>
      "pixel art, 8-bit, retro game style, clean lines"
  | VisualStyle.cyberpunk =>
      "cyberpunk style, neon lights, futuristic, high contrast"

/-- The prompt construction of `_generateImageUnsafe`
(`src/services/gemini.ts` lines 399-402). -/
def buildPrompt (word : String) (ctx : Option String) (style : VisualStyle) : String :=
  match ctx with
  | some c => word ++ ", context: " ++ c ++ ", " ++ styleMap style
  | none => word ++ ", " ++ styleMap style

/-- `getPollinationsUrl` (`src/services/gemini.ts` lines 405-420), with the
seed passed in (the caller chooses a deterministic hash seed or a fresh
random seed depending on `forceRegenerate`). -/
def getPollinationsUrl (pollinationsApiKey promptText : String) (seed : Nat) : String :=
  let url := "https://image.pollinations.ai/prompt/" ++ encodeURIComponent promptText ++
    "?width=800&height=600&nologo=true&seed=" ++ toString seed ++ "&model=flux"
  if !(pollinationsApiKey == "") then
    if !(jsIncludes url "privateKey=") then
      url ++ "&privateKey=" ++ encodeURIComponent pollinationsApiKey
    else url
  else url

/-- Result of `_generateImageUnsafe` together with the number of adapter
network calls the request made (0 when the branch goes straight to the
Pollinations URL constructor, 1 when an adapter was consulted). -/
structure UnsafeResult where
  url : String
  adapterCalls : Nat
deriving DecidableEq, Repr

/-- The Hugging Face key resolution of `_generateImageUnsafe`
(`src/services/gemini.ts` lines 504-511): settings key trimmed, falling back
to the environment key, with a leading `Bearer ` stripped. -/
def resolveHfKey (s : ImgSettings) : String :=
  let k0 := jsTrim s.huggingFaceApiKey
  let k1 := if k0 == "" then s.envHuggingFaceApiKey else k0
  if jsStartsWith k1 "Bearer " then jsTrim (jsDrop k1 7) else k1

/-- `_generateImageUnsafe` (`src/services/gemini.ts` lines 384-545).  Every
branch that consults an adapter catches any failure (including the explicit
401/402 handling of the Hugging Face branch) and returns the Pollinations
URL; the `hf_space` strategy is remapped to `pollinations`; strategies
without a usable credential skip the adapter call entirely. -/
def generateImageUnsafe (s : ImgSettings) (env : ImgEnv) (word : String)
    (ctx : Option String) (forceRegenerate : Bool) : UnsafeResult :=
  let promptText := buildPrompt word ctx s.visualStyle
  let seed := if forceRegenerate then env.randomSeed else stringToHash promptText
  let polli := getPollinationsUrl s.pollinationsApiKey promptText seed
  let strategy :=
    if s.imageProvider = ImageProvider.hfSpace then ImageProvider.pollinations
    else s.imageProvider
  match strategy with
  | ImageProvider.pollinations => ⟨polli, 0⟩
  | ImageProvider.custom =>
      if s.customApiKey == "" then ⟨polli, 0⟩
      else
        match env.adapter with
        | Except.ok u => ⟨u, 1⟩
        | Except.error _ => ⟨polli, 1⟩
  | ImageProvider.gemini =>
      if s.envApiKey == "" then ⟨polli, 0⟩
      else
        match env.adapter with
        | Except.ok u => ⟨u, 1⟩
        | Except.error _ => ⟨polli, 1⟩
  | ImageProvider.deepai =>
      (match env.adapter with
        | Except.ok u => ⟨u, 1⟩
        | Except.error _ => ⟨polli, 1⟩)
  | ImageProvider.huggingface =>
      if resolveHfKey s == "" then ⟨polli, 0⟩
      else
        match env.adapter with
        | Except.ok u => ⟨u, 1⟩
        | Except.error _ => ⟨polli, 1⟩
  | ImageProvider.auto => ⟨polli, 0⟩
  | ImageProvider.hfSpace => ⟨polli, 0⟩

/-- `localStorage`, as an association list (`setItem` overwrites). -/
abbrev ImgCache := List (String × String)

/-- `localStorage.getItem`. -/
def cacheGet (c : ImgCache) (k : String) : Option String :=
  (c.find? (fun p => p.1 == k)).map Prod.snd

/-- `localStorage.setItem`. -/
def cacheSet (c : ImgCache) (k v : String) : ImgCache :=
  (k, v) :: c.filter (fun p => !(p.1 == k))

/-- The cache key of `generateImage` (`src/services/gemini.ts` line 344):
`img_` + the lowercased, trimmed headword. -/
def cacheKey (word : String) : String := "img_" ++ jsTrim (jsToLower word)

/-- Result of one `generateImage` call: the returned artifact reference, the
cache after the call, and whether a (queued) generation was executed. -/
structure GenResult where
  url : String
  cache : ImgCache
  regenerated : Bool
deriving DecidableEq, Repr

/-- The cache-read decision of `generateImage` (`src/services/gemini.ts`
lines 347-368): skipped entirely when forcing; otherwise a cached URL is
served unless a Pollinations key is configured and the cached URL lacks the
`privateKey=` marker (then the entry is considered stale). -/
def serveFromCache (s : ImgSettings) (cache : ImgCache) (word : String)
    (forceRegenerate : Bool) : Option String :=
  if forceRegenerate then none
  else
    match cacheGet cache (cacheKey word) with
    | some cachedUrl =>
        let hasKeyConfigured := !(s.pollinationsApiKey == "")
        let urlHasKey := jsIncludes cachedUrl "privateKey="
        if !hasKeyConfigured || (hasKeyConfigured && urlHasKey) then some cachedUrl
        else none
    | none => none

/-- `generateImage` (`src/services/gemini.ts` lines 342-381): the cache read
above, then a queued `_generateImageUnsafe` call, then a cache write guarded
by `url && url.startsWith("http")`. -/
def generateImage (s : ImgSettings) (env : ImgEnv) (cache : ImgCache)
    (word : String) (ctx : Option String) (forceRegenerate : Bool) : GenResult :=
  match serveFromCache s cache word forceRegenerate with
  | some u => ⟨u, cache, false⟩
  | none =>
      let url := (generateImageUnsafe s env word ctx forceRegenerate).url
      let cache2 :=
        if !(url == "") && jsStartsWith url "http" then cacheSet cache (cacheKey word) url
        else cache
      ⟨url, cache2, true⟩

/-! ## Image request queue (`src/services/gemini.ts`, `queueImageRequest`) -/

/-- One queued image request, as the queue sees it: how long its operation
runs once started, and whether its promise rejects.  (`queueImageRequest`
chains each operation onto the tail promise behind a fixed 2000 ms delay and
replaces the tail by `nextRequest.catch(() => {})`, so the tail settles at
the operation end whether it fulfilled or rejected.) -/
structure QueuedRequest where
  duration : Nat
  fails : Bool
deriving DecidableEq, Repr

/-- Timed semantics of the promise chain built by `queueImageRequest`
(`src/services/gemini.ts` lines 11-25): given the time at which the current
tail promise settled, each request starts 2000 ms later and the tail settles
when its operation ends, regardless of rejection.  Returns the list of
`(start, settled)` times in FIFO order. -/
def runQueue : Nat → List QueuedRequest → List (Nat × Nat)
  | _, [] => []
  | tailSettled, r :: rs =>
      let s := tailSettled + 2000
      let c := s + r.duration
      (s, c) :: runQueue c rs

/-! ## Pairing (match) mode (`src/views/StudySession.tsx`) -/

/-- The `state` field of a `MatchCard` (`src/views/StudySession.tsx` lines 14-20). -/
inductive CardState where
  | default
  | selected
  | matched
  | wrong
  | correct
deriving DecidableEq, Repr

/-- `MatchCard` (`src/views/StudySession.tsx` lines 14-20). -/
structure MatchCard where
  id : String
  wordId : String
  text : String
  state : CardState
deriving DecidableEq, Repr

/-- The React state of one pairing-mode session: the session words (the
`words` prop, constant), the card grid, the session-wide mistake set
(`matchMistakes`), the interaction lock (`isProcessingMatch`), the scheduled
`setTimeout` continuation (`pending`: match flag and the two card ids), and
the outcome list handed to `onComplete` once the grid empties. -/
structure MatchState where
  words : List Word
  cards : List MatchCard
  mistakes : List String
  processing : Bool
  pending : Option (Bool × String × String)
  completed : Option (List (String × Bool))
deriving DecidableEq, Repr

/-- JS `Set.prototype.add` on the mistake set. -/
def addMistake (m : List String) (x : String) : List String :=
  if m.contains x then m else x :: m

/-- The grid construction of the match-mode setup effect
(`src/views/StudySession.tsx` lines 167-185): one Polish and one English
card per word, both carrying the word id.  The random shuffle that follows
is a permutation of this list; the properties proved below do not depend on
the card order, so the unshuffled order is used. -/
def setupCards (words : List Word) : List MatchCard :=
  words.foldr
    (fun w acc =>
      ⟨"pl-" ++ w.id, w.id, w.polish, CardState.default⟩ ::
      ⟨"en-" ++ w.id, w.id, w.english, CardState.default⟩ :: acc)
    []

/-- The initial pairing-mode state. -/
def initialMatchState (words : List Word) : MatchState :=
  { words := words, cards := setupCards words, mistakes := []
    processing := false, pending := none, completed := none }

/-- `handleCardClick` (`src/views/StudySession.tsx` lines 213-253), up to the
scheduled `setTimeout` continuation, which is stored in `pending` and fired
by `resolvePending`.  Clicks are ignored while processing or on a card that
is not in the `default` state; a first click selects; a second click marks
the pair `correct` (same word id) or `wrong` (different word ids, recording
both *word ids* in the mistake set) and locks interaction. -/
def handleCardClick (s : MatchState) (clicked : MatchCard) : MatchState :=
  if s.processing || clicked.state == CardState.matched || clicked.state == CardState.wrong
      || clicked.state == CardState.selected || clicked.state == CardState.correct then s
  else
    match s.cards.find? (fun c => c.state == CardState.selected) with
    | none =>
        { s with
            cards := s.cards.map (fun c =>
              if c.id == clicked.id then { c with state := CardState.selected } else c) }
    | some sel =>
        if sel.wordId == clicked.wordId then
          { s with
              processing := true
              cards := s.cards.map (fun c =>
                if c.id == clicked.id || c.id == sel.id then { c with state := CardState.correct } else c)
              pending := some (true, sel.id, clicked.id) }
        else
          { s with
              processing := true
              mistakes := addMistake (addMistake s.mistakes sel.wordId) clicked.wordId
              cards := s.cards.map (fun c =>
                if c.id == clicked.id || c.id == sel.id then { c with state := CardState.wrong } else c)
              pending := some (false, sel.id, clicked.id) }

/-- The `setTimeout` continuations of `handleCardClick`
(`src/views/StudySession.tsx` lines 230-240 and 247-250): a correct pair
becomes `matched` (leaving the active grid), the win condition is checked
and on an empty grid the outcome list (`correct = word id not in the
mistake set`) is produced; a wrong pair reverts to `default`.  Both unlock
interaction. -/
def resolvePending (s : MatchState) : MatchState :=
  match s.pending with
  | none => s
  | some (isMatch, id1, id2) =>
      if isMatch then
        let cards2 := s.cards.map (fun c =>
          if c.id == id1 || c.id == id2 then { c with state := CardState.matched } else c)
        let remaining := cards2.filter (fun c =>
          !(c.state == CardState.matched) && !(c.state == CardState.correct))
        let completed :=
          if remaining.isEmpty then
            some (s.words.map (fun w => (w.id, !(s.mistakes.contains w.id))))
          else s.completed
        { s with cards := cards2, processing := false, pending := none, completed := completed }
      else
        { s with
            cards := s.cards.map (fun c =>
              if c.id == id1 || c.id == id2 then { c with state := CardState.default } else c)
            processing := false
            pending := none }

/-- Session events: a click on a card (by card id) and the firing of the
scheduled timeout. -/
inductive MEvent where
  | click (cardId : String)
  | fire
deriving DecidableEq, Repr

/-- One event step.  After completion the component has called `onComplete`
and unmounted, so a completed state is terminal. -/
def stepMatch (s : MatchState) (e : MEvent) : MatchState :=
  if s.completed.isSome then s
  else
    match e with
    | MEvent.click cid =>
        match s.cards.find? (fun c => c.id == cid) with
        | some card => handleCardClick s card
        | none => s
    | MEvent.fire => resolvePending s

/-- A pairing-mode session: fold the event list over `stepMatch`. -/
def runSession (s : MatchState) (evts : List MEvent) : MatchState :=
  evts.foldl stepMatch s

/-! ## Sample data (from `SEED_WORDS` in `src/services/storage.ts`) -/

/-- Seed word 1 (`dom` / `house`). -/
def wordA : Word :=
  { id := "1", polish := "dom", english := "house", category := "dom"
    level := LanguageLevel.a1, status := WordStatus.new
    nextReview := 0, lastReview := none, attempts := 0, correct := 0
    imageUrl := none, exampleSentence := none, aiGenerated := false }

/-- Seed word 2 (`kot` / `cat`). -/
def wordB : Word :=
  { id := "2", polish := "kot", english := "cat", category := "zwierzęta"
    level := LanguageLevel.a1, status := WordStatus.new
    nextReview := 0, lastReview := none, attempts := 0, correct := 0
    imageUrl := none, exampleSentence := none, aiGenerated := false }

/-- Seed word 3 (`samochód` / `car`). -/
def wordC : Word :=
  { id := "3", polish := "samochód", english := "car", category := "transport"
    level := LanguageLevel.a1, status := WordStatus.new
    nextReview := 0, lastReview := none, attempts := 0, correct := 0
    imageUrl := none, exampleSentence := none, aiGenerated := false }

/-- The terminal Pollinations URL a request falls back to: the prompt built
from the request, seeded by the fresh random seed when forcing and by the
deterministic prompt hash otherwise (`src/services/gemini.ts` line 407). -/
def defaultPolliUrl (s : ImgSettings) (env : ImgEnv) (word : String)
    (ctx : Option String) (forceRegenerate : Bool) : String :=
  let prompt := buildPrompt word ctx s.visualStyle
  getPollinationsUrl s.pollinationsApiKey prompt
    (if forceRegenerate then env.randomSeed else stringToHash prompt)

/-- Invariant of a pairing-mode state: once the outcome list exists, it is
the one computed from the session words and the current mistake set. -/
def sessionInv (s : MatchState) : Prop :=
  ∀ res, s.completed = some res →
    res = s.words.map (fun w => (w.id, !(s.mistakes.contains w.id)))

/-- The event trace of the pairing scenario: mismatch item 1 against item 2
once, then match all three pairs correctly. -/
def scenarioEvents : List MEvent :=
  [MEvent.click "pl-1", MEvent.click "en-2", MEvent.fire,
   MEvent.click "pl-1", MEvent.click "en-1", MEvent.fire,
   MEvent.click "pl-2", MEvent.click "en-2", MEvent.fire,
   MEvent.click "pl-3", MEvent.click "en-3", MEvent.fire]

/-- A New item far in the future: due regardless of `nextReview`. -/
def lateNewWord : Word := { wordA with nextReview := 987654321 }

/-- Settings with the DeepAI proxy selected and a Pollinations key
configured. -/
def deepaiKeySettings : ImgSettings :=
  { imageProvider := ImageProvider.deepai, visualStyle := VisualStyle.minimalist
    pollinationsApiKey := "sk-poll", customApiKey := "", customApiBase := ""
    huggingFaceApiKey := "", envApiKey := "", envHuggingFaceApiKey := "" }

/-- Settings with the DeepAI proxy selected and no credentials at all. -/
def deepaiAnonSettings : ImgSettings :=
  { imageProvider := ImageProvider.deepai, visualStyle := VisualStyle.minimalist
    pollinationsApiKey := "", customApiKey := "", customApiBase := ""
    huggingFaceApiKey := "", envApiKey := "", envHuggingFaceApiKey := "" }

/-- Settings with the Pollinations provider selected and no credentials. -/
def pollinationsSettings : ImgSettings :=
  { imageProvider := ImageProvider.pollinations, visualStyle := VisualStyle.minimalist
    pollinationsApiKey := "", customApiKey := "", customApiBase := ""
    huggingFaceApiKey := "", envApiKey := "", envHuggingFaceApiKey := "" }

/-- Settings with the Hugging Face provider selected and a key configured. -/
def hfKeySettings : ImgSettings :=
  { imageProvider := ImageProvider.huggingface, visualStyle := VisualStyle.minimalist
    pollinationsApiKey := "", customApiKey := "", customApiBase := ""
    huggingFaceApiKey := "hf_abc", envApiKey := "", envHuggingFaceApiKey := "" }

/-- An adapter environment whose single call succeeds with a `data:` URI. -/
def dataUriEnvOne : ImgEnv :=
  { adapter := Except.ok "data:image/png;base64,ONE", randomSeed := 11 }

/-- A second adapter environment: the same request later, the backend now
returning a different `data:` URI payload. -/
def dataUriEnvTwo : ImgEnv :=
  { adapter := Except.ok "data:image/png;base64,TWO", randomSeed := 12 }

/-- An adapter environment whose single call fails. -/
def failingEnv : ImgEnv :=
  { adapter := Except.error ProviderFailure.other, randomSeed := 0 }

/-- A cached Pollinations URL produced without a key (anonymous tier: no
`privateKey=` marker). -/
def anonCachedUrl : String :=
  "https://image.pollinations.ai/prompt/cat?width=800&height=600&nologo=true&seed=5&model=flux"

/-- A cache holding the anonymous-tier entry for the headword `cat`. -/
def anonCatCache : ImgCache := [(cacheKey "cat", anonCachedUrl)]

/-- Two queued image requests: a failing slow one, then a fast one. -/
def sampleQueue : List QueuedRequest := [⟨500, true⟩, ⟨300, false⟩]

/-! ## Supporting lemmas -/

lemma applyOutcome_eq_amended (now : Nat) (word : Word) (isCorrect : Bool) :
    applyOutcome now word isCorrect = applyOutcomeAmended now word isCorrect := by
  cases isCorrect with
  | false => simp [applyOutcome, applyOutcomeAmended]
  | true =>
    have hst : (word.correct + 1 > 4) = (word.correct > 3) := by
      apply propext; constructor <;> omega
    simp [applyOutcome, applyOutcomeAmended, hst, Nat.mul_assoc]

instance : IsTotal Word byNextReview :=
  ⟨fun a b => Nat.le_total a.nextReview b.nextReview⟩

instance : IsTrans Word byNextReview :=
  ⟨fun _ _ _ hab hbc => Nat.le_trans hab hbc⟩

lemma isDue_eq_claimed (now : Nat) (w : Word) : isDue now w = isDueClaimed now w := by
  simp [isDue, isDueClaimed, Bool.or_comm]

/-! ## Claim C1 -/

/-- Claim C1, counterexample: for an item with pre-update streak 3 and a
correct outcome, the code leaves the status at Learning (it checks `> 3` on
the pre-update streak), while the claim as stated (status Learned exactly
when the incremented streak exceeds 3) predicts Learned. -/
theorem c1_counterexample :
    applyOutcome 1000 streakThreeWord true ≠ applyOutcomeClaimed 1000 streakThreeWord true ∧
    (applyOutcome 1000 streakThreeWord true).status = WordStatus.learning ∧
    (applyOutcome 1000 streakThreeWord true).correct = 4 ∧
    (applyOutcomeClaimed 1000 streakThreeWord true).status = WordStatus.learned := by
  refine ⟨by decide, by decide, by decide, by decide⟩

/-- Claim C1 (amended): the rescheduling update realized per-item inside
`handleSessionComplete` equals the reference definition in which, on a
correct outcome, `nextReviewAt` becomes now plus 1, 3 or 7 days by the
pre-update streak (capped at 7 days), the streak is incremented, and the
status becomes Learned exactly when the *pre-update* streak exceeds 3
(equivalently, the incremented streak exceeds 4), otherwise Learning; on an
incorrect outcome `nextReviewAt` becomes now plus 10 minutes, the streak
resets to 0 and the status becomes Learning; in both branches the attempt
count increases by one and `lastReviewAt` becomes now. -/
theorem c1_rescheduling :
    (∀ now word isCorrect,
      applyOutcome now word isCorrect = applyOutcomeAmended now word isCorrect) ∧
    (∀ now words results,
      handleSessionComplete now words results =
        words.map fun w =>
          match results.find? (fun r => r.1 == w.id) with
          | some res => applyOutcomeAmended now w res.2
          | none => w) := by
  refine ⟨applyOutcome_eq_amended, ?_⟩
  intro now words results
  unfold handleSessionComplete
  apply List.map_congr_left
  intro w _
  cases hf : results.find? (fun r => r.1 == w.id) <;>
    simp [hf, applyOutcome_eq_amended]

/-! ## Claim C2 -/

/-- Claim C2: the due-selection of `startSession` returns precisely the
source-filtered items satisfying `status == New` or `nextReviewAt <= now`,
sorted ascending by `nextReviewAt`, truncated to the first 10, and an item
with status New is due regardless of its `nextReviewAt` value. -/
theorem c2_select_due :
    (∀ now src words, selectDue now src words = selectDueClaimed now src words) ∧
    (∀ now src words, List.Sorted byNextReview (selectDue now src words)) ∧
    (∀ now src words, (selectDue now src words).length ≤ 10) ∧
    (∀ now w, w.status = WordStatus.new → isDue now w = true) := by
  refine ⟨?_, ?_, ?_, ?_⟩
  · intro now src words
    unfold selectDue selectDueClaimed
    have h : (filterBySource src words).filter (isDue now) =
        (filterBySource src words).filter (isDueClaimed now) :=
      List.filter_congr (fun w _ => isDue_eq_claimed now w)
    rw [h]
  · intro now src words
    exact List.Pairwise.sublist (List.take_sublist _ _)
      (List.sorted_insertionSort byNextReview _)
  · intro now src words
    exact List.length_take_le _ _
  · intro now w h
    simp [isDue, h]

/-- Witness for claim C2 at concrete inputs: the selection agrees with the
claimed reference on a concrete pool, and a New item with a far-future
`nextReview` is still due. -/
theorem c2_select_due_witness :
    selectDue 5 StudySource.all [wordA, streakThreeWord, lateNewWord] =
      selectDueClaimed 5 StudySource.all [wordA, streakThreeWord, lateNewWord] ∧
    isDue 0 lateNewWord = true :=
  ⟨c2_select_due.1 5 StudySource.all [wordA, streakThreeWord, lateNewWord],
   c2_select_due.2.2.2 0 lateNewWord rfl⟩

/-! ## Claim C9 -/

lemma runQueue_length (t0 : Nat) (rs : List QueuedRequest) :
    (runQueue t0 rs).length = rs.length := by
  induction rs generalizing t0 with
  | nil => rfl
  | cons r rs ih => simp [runQueue, ih]

lemma runQueue_get_succ (rs : List QueuedRequest) (t0 i : Nat)
    (h : i + 1 < (runQueue t0 rs).length) :
    ((runQueue t0 rs).get ⟨i + 1, h⟩).1 =
      ((runQueue t0 rs).get ⟨i, Nat.lt_of_succ_lt h⟩).2 + 2000 := by
  induction rs generalizing t0 i with
  | nil => simp [runQueue] at h
  | cons r rs ih =>
    cases i with
    | zero =>
      cases rs with
      | nil => simp [runQueue] at h
      | cons r2 rs2 => simp [runQueue]
    | succ j =>
      have h2 : j + 1 < (runQueue (t0 + 2000 + r.duration) rs).length := by
        simpa [runQueue] using h
      simpa [runQueue] using ih (t0 + 2000 + r.duration) j h2

lemma runQueue_duration_only (rs rs' : List QueuedRequest) (t0 : Nat)
    (h : rs.map QueuedRequest.duration = rs'.map QueuedRequest.duration) :
    runQueue t0 rs = runQueue t0 rs' := by
  induction rs generalizing rs' t0 with
  | nil =>
    cases rs' with
    | nil => rfl
    | cons a l => simp at h
  | cons r rs ih =>
    cases rs' with
    | nil => simp at h
    | cons r2 rs2 =>
      simp only [List.map_cons, List.cons.injEq] at h
      simp [runQueue, h.1, ih rs2 _ h.2]

lemma runQueue_mem_bounds (rs : List QueuedRequest) (t0 : Nat) (p : Nat × Nat)
    (hp : p ∈ runQueue t0 rs) : t0 + 2000 ≤ p.1 ∧ p.1 ≤ p.2 := by
  induction rs generalizing t0 with
  | nil => simp [runQueue] at hp
  | cons r rs ih =>
    simp only [runQueue, List.mem_cons] at hp
    rcases hp with rfl | hp
    · exact ⟨Nat.le_refl _, Nat.le_add_right _ _⟩
    · have := ih (t0 + 2000 + r.duration) hp
      omega

/-- Claim C9: requests are serialized FIFO through the global queue; each
request starts exactly 2000 ms after the previous queued request settled
(and hence no sooner), the schedule depends only on the request durations
and never on their failure flags (a failed request does not stall the
queue), and every request starts at least 2000 ms after the tail it was
chained onto and completes no earlier than it starts. -/
theorem c9_queue_spacing :
    (∀ (t0 : Nat) (rs : List QueuedRequest) (i : Nat)
        (h : i + 1 < (runQueue t0 rs).length),
      ((runQueue t0 rs).get ⟨i + 1, h⟩).1 =
        ((runQueue t0 rs).get ⟨i, Nat.lt_of_succ_lt h⟩).2 + 2000) ∧
    (∀ (t0 : Nat) (rs rs' : List QueuedRequest),
      rs.map QueuedRequest.duration = rs'.map QueuedRequest.duration →
      runQueue t0 rs = runQueue t0 rs') ∧
    (∀ (t0 : Nat) (rs : List QueuedRequest) (p : Nat × Nat),
      p ∈ runQueue t0 rs → t0 + 2000 ≤ p.1 ∧ p.1 ≤ p.2) :=
  ⟨fun t0 rs i h => runQueue_get_succ rs t0 i h,
   fun t0 rs rs' h => runQueue_duration_only rs rs' t0 h,
   fun t0 rs p hp => runQueue_mem_bounds rs t0 p hp⟩

/-- Witness for claim C9 on a concrete queue of two requests, the first of
which fails: the second still starts exactly 2000 ms after the first
settled, and flipping the failure flag leaves the schedule unchanged. -/
theorem c9_queue_spacing_witness :
    ((runQueue 0 sampleQueue).get ⟨1, by decide⟩).1 =
      ((runQueue 0 sampleQueue).get ⟨0, by decide⟩).2 + 2000 ∧
    runQueue 0 sampleQueue = runQueue 0 [⟨500, false⟩, ⟨300, false⟩] ∧
    (0 + 2000 ≤ ((2000, 2500) : Nat × Nat).1 ∧
      ((2000, 2500) : Nat × Nat).1 ≤ ((2000, 2500) : Nat × Nat).2) :=
  ⟨c9_queue_spacing.1 0 sampleQueue 0 (by decide),
   c9_queue_spacing.2.1 0 sampleQueue [⟨500, false⟩, ⟨300, false⟩] (by decide),
   c9_queue_spacing.2.2 0 sampleQueue (2000, 2500) (by decide)⟩

/-! ## Claim C4 -/

/-- Claim C4, counterexample: under the Perplexity provider with a key
configured, a mismatching input whose primary verification call throws and
whose in-catch fallback fetch also throws makes `checkTranslation` reject;
the rejection escapes `checkTyping` uncaught and no outcome is recorded at
all — the claim's "never silently skipped" fails at this concrete input. -/
theorem c4_counterexample :
    cleanAnswer "dog" ≠ cleanAnswer "cat" ∧
    checkTranslation TextProvider.perplexity true true (Except.error ()) (Except.error ()) =
      Except.error () ∧
    checkTyping "dog" "cat"
      (checkTranslation TextProvider.perplexity true true (Except.error ()) (Except.error ())) =
      none := by
  refine ⟨by decide, rfl, by decide⟩

/-- Claim C4 (amended): an input equal to the target up to case and
surrounding whitespace is recorded correct with no verification call; on
mismatch the verification operation is consulted, and whenever it delivers
a result with `isCorrect = false` — in particular each unavailability
sentinel (missing key, thrown Gemini call, thrown custom call) — the
outcome is forced to incorrect, never correct; the custom branch and the
default Gemini path always deliver a result, so an outcome is always
recorded there (fail-closed); under the Perplexity provider, however, a
failure of both the primary call and its in-catch fallback rejects out of
`checkTyping` and no outcome is recorded at all. -/
theorem c4_fail_closed :
    (∀ input target verify, cleanAnswer input = cleanAnswer target →
      checkTyping input target verify = some (true, false)) ∧
    (∀ input target v out, cleanAnswer input ≠ cleanAnswer target →
      checkTyping input target (Except.ok v) = some out → out.2 = true) ∧
    (∀ input target v, cleanAnswer input ≠ cleanAnswer target → v.isCorrect = false →
      checkTyping input target (Except.ok v) = some (false, true)) ∧
    (∀ hasEnvApiKey hasPerplexityKey backend fallback,
      (∃ r, checkTranslation TextProvider.custom hasEnvApiKey hasPerplexityKey
        backend fallback = Except.ok r) ∧
      (∃ r, checkTranslation TextProvider.geminiOrFree hasEnvApiKey hasPerplexityKey
        backend fallback = Except.ok r)) ∧
    (∀ hasEnvApiKey hasPerplexityKey fallback,
      checkTranslation TextProvider.custom hasEnvApiKey hasPerplexityKey
        (Except.error ()) fallback = Except.ok customApiError ∧
      checkTranslation TextProvider.geminiOrFree true hasPerplexityKey
        (Except.error ()) fallback = Except.ok aiErrorCaught ∧
      (∀ backend, checkTranslation TextProvider.geminiOrFree false hasPerplexityKey
        backend fallback = Except.ok aiErrorNoKey)) ∧
    (aiErrorNoKey.isCorrect = false ∧ aiErrorCaught.isCorrect = false ∧
      customApiError.isCorrect = false) ∧
    (∀ hasEnvApiKey, checkTranslation TextProvider.perplexity hasEnvApiKey true
      (Except.error ()) (Except.error ()) = Except.error ()) ∧
    (∀ input target, cleanAnswer input ≠ cleanAnswer target →
      checkTyping input target (Except.error ()) = none) := by
  refine ⟨?_, ?_, ?_, ?_, ?_, ?_, ?_, ?_⟩
  · intro input target verify h
    simp [checkTyping, h]
  · intro input target v out h hout
    simp only [checkTyping, beq_iff_eq, if_neg h] at hout
    split at hout <;> cases hout <;> rfl
  · intro input target v h hv
    simp only [checkTyping, beq_iff_eq, if_neg h]
    split <;> simp [hv]
  · intro hasEnvApiKey hasPerplexityKey backend fallback
    constructor
    · cases backend <;> simp [checkTranslation]
    · simp [checkTranslation]
  · intro hasEnvApiKey hasPerplexityKey fallback
    refine ⟨rfl, ?_, ?_⟩
    · simp [checkTranslation, geminiDefaultCheck]
    · intro backend
      simp [checkTranslation, geminiDefaultCheck]
  · exact ⟨rfl, rfl, rfl⟩
  · intro hasEnvApiKey
    simp [checkTranslation]
  · intro input target h
    simp [checkTyping, h]

/-- Witness for claim C4 (amended) at concrete inputs: `"  CAT "` matches
target `"cat"` with no verification call; a delivered mismatch result marks
verification as consulted; a sentinel forces an incorrect outcome; and the
Perplexity double failure records no outcome. -/
theorem c4_fail_closed_witness :
    checkTyping "  CAT " "cat" (Except.ok aiErrorCaught) = some (true, false) ∧
    ((false, true) : Bool × Bool).2 = true ∧
    checkTyping "dog" "cat" (Except.ok customApiError) = some (false, true) ∧
    checkTyping "dog" "cat" (Except.error ()) = none :=
  ⟨c4_fail_closed.1 "  CAT " "cat" (Except.ok aiErrorCaught) (by decide),
   c4_fail_closed.2.1 "dog" "cat" customApiError (false, true) (by decide) (by decide),
   c4_fail_closed.2.2.1 "dog" "cat" customApiError (by decide) (by decide),
   c4_fail_closed.2.2.2.2.2.2.2 "dog" "cat" (by decide)⟩

/-! ## Claim C5 -/

lemma jsStartsWith_append (a b pat : String) (h : jsStartsWith a pat = true) :
    jsStartsWith (a ++ b) pat = true := by
  simp only [jsStartsWith, List.isPrefixOf_iff_prefix, String.data_append] at h ⊢
  exact h.trans (List.prefix_append a.data b.data)

lemma pollinations_url_prefixed (key prompt : String) (seed : Nat) :
    jsStartsWith (getPollinationsUrl key prompt seed) "https://image.pollinations.ai/" = true := by
  have hbase : jsStartsWith
      ("https://image.pollinations.ai/prompt/" ++ encodeURIComponent prompt ++
        "?width=800&height=600&nologo=true&seed=" ++ toString seed ++ "&model=flux")
      "https://image.pollinations.ai/" = true := by
    apply jsStartsWith_append
    apply jsStartsWith_append
    apply jsStartsWith_append
    apply jsStartsWith_append
    decide
  unfold getPollinationsUrl
  dsimp only
  split
  · split
    · exact jsStartsWith_append _ _ _ (jsStartsWith_append _ _ _ hbase)
    · exact hbase
  · exact hbase

lemma pollinations_url_http (key prompt : String) (seed : Nat) :
    jsStartsWith (getPollinationsUrl key prompt seed) "http" = true := by
  have h := pollinations_url_prefixed key prompt seed
  simp only [jsStartsWith, List.isPrefixOf_iff_prefix] at h ⊢
  exact List.IsPrefix.trans (by decide) h

lemma generateImageUnsafe_fallback (s : ImgSettings) (env : ImgEnv) (word : String)
    (ctx : Option String) (forceRegenerate : Bool) (e : ProviderFailure)
    (h : env.adapter = Except.error e) :
    (generateImageUnsafe s env word ctx forceRegenerate).url =
      defaultPolliUrl s env word ctx forceRegenerate := by
  unfold generateImageUnsafe defaultPolliUrl
  cases hp : s.imageProvider <;> simp [hp, h] <;> (try split) <;> (try simp [h])

lemma generateImageUnsafe_total (s : ImgSettings) (env : ImgEnv) (word : String)
    (ctx : Option String) (forceRegenerate : Bool) :
    (generateImageUnsafe s env word ctx forceRegenerate).url =
      defaultPolliUrl s env word ctx forceRegenerate ∨
    env.adapter = Except.ok (generateImageUnsafe s env word ctx forceRegenerate).url := by
  unfold generateImageUnsafe defaultPolliUrl
  cases hp : s.imageProvider <;> cases henv : env.adapter <;>
    simp [hp, henv] <;> (try split) <;> (try simp)

lemma generateImageUnsafe_calls (s : ImgSettings) (env : ImgEnv) (word : String)
    (ctx : Option String) (forceRegenerate : Bool) :
    (generateImageUnsafe s env word ctx forceRegenerate).adapterCalls ≤ 1 := by
  unfold generateImageUnsafe
  cases hp : s.imageProvider <;> cases henv : env.adapter <;>
    simp [hp, henv] <;> (try split) <;> (try simp)

/-- Claim C5: `_generateImageUnsafe` is total and always returns an artifact
reference: its result is either the terminal Pollinations URL or the
configured adapter result; on any adapter failure — rate-limited,
unauthorized or otherwise — it returns the Pollinations URL (the failure is
absorbed, never surfaced); the failing adapter is consulted at most once
within a request (never retried); and the terminal Pollinations URL
constructor always yields a reference to `https://image.pollinations.ai/`. -/
theorem c5_image_fallback :
    (∀ s env word ctx forceRegenerate,
      (generateImageUnsafe s env word ctx forceRegenerate).url =
        defaultPolliUrl s env word ctx forceRegenerate ∨
      env.adapter = Except.ok (generateImageUnsafe s env word ctx forceRegenerate).url) ∧
    (∀ s env word ctx forceRegenerate e, env.adapter = Except.error e →
      (generateImageUnsafe s env word ctx forceRegenerate).url =
        defaultPolliUrl s env word ctx forceRegenerate) ∧
    (∀ s env word ctx forceRegenerate,
      (generateImageUnsafe s env word ctx forceRegenerate).adapterCalls ≤ 1) ∧
    (∀ key prompt seed,
      jsStartsWith (getPollinationsUrl key prompt seed) "https://image.pollinations.ai/" = true) :=
  ⟨fun s env word ctx f => generateImageUnsafe_total s env word ctx f,
   fun s env word ctx f e h => generateImageUnsafe_fallback s env word ctx f e h,
   fun s env word ctx f => generateImageUnsafe_calls s env word ctx f,
   fun key prompt seed => pollinations_url_prefixed key prompt seed⟩

/-- Witness for claim C5 at concrete inputs: with the Hugging Face provider
configured and a key present, a rate-limited and an unauthorized adapter
response each fall through to the Pollinations URL. -/
theorem c5_image_fallback_witness :
    (generateImageUnsafe hfKeySettings ⟨Except.error ProviderFailure.rateLimited, 3⟩
        "cat" none false).url =
      defaultPolliUrl hfKeySettings ⟨Except.error ProviderFailure.rateLimited, 3⟩
        "cat" none false ∧
    (generateImageUnsafe hfKeySettings ⟨Except.error ProviderFailure.unauthorized, 3⟩
        "cat" none false).url =
      defaultPolliUrl hfKeySettings ⟨Except.error ProviderFailure.unauthorized, 3⟩
        "cat" none false :=
  ⟨c5_image_fallback.2.1 hfKeySettings ⟨Except.error ProviderFailure.rateLimited, 3⟩
      "cat" none false ProviderFailure.rateLimited rfl,
   c5_image_fallback.2.1 hfKeySettings ⟨Except.error ProviderFailure.unauthorized, 3⟩
      "cat" none false ProviderFailure.unauthorized rfl⟩

/-! ## Claim C6 -/

lemma infixAt_iff (pat l : List Char) : infixAt pat l = true ↔ pat <:+: l := by
  induction l with
  | nil =>
    simp [infixAt, List.isPrefixOf_iff_prefix, List.prefix_nil, List.infix_nil]
  | cons c rest ih =>
    simp [infixAt, List.isPrefixOf_iff_prefix, ih, List.infix_cons_iff]

lemma jsIncludes_iff (s pat : String) : jsIncludes s pat = true ↔ pat.data <:+: s.data := by
  simp [jsIncludes, infixAt_iff]

lemma pollinations_url_marker (key prompt : String) (seed : Nat) (hk : ¬ key = "") :
    jsIncludes (getPollinationsUrl key prompt seed) "privateKey=" = true := by
  unfold getPollinationsUrl
  dsimp only
  rw [if_pos (by simpa using hk)]
  split
  · rw [jsIncludes_iff]
    have h1 : "privateKey=".data <:+: "&privateKey=".data := by decide
    have h2 : "privateKey=".data <:+:
        (("https://image.pollinations.ai/prompt/" ++ encodeURIComponent prompt ++
          "?width=800&height=600&nologo=true&seed=" ++ toString seed ++ "&model=flux") ++
          "&privateKey=").data := by
      rw [String.data_append]
      exact h1.trans (List.suffix_append _ _).isInfix
    rw [String.data_append]
    exact h2.trans (List.prefix_append _ _).isInfix
  · rename_i hinc
    simpa using hinc

lemma serveFromCache_nokey (s : ImgSettings) (cache : ImgCache) (word : String) (u : String)
    (hk : s.pollinationsApiKey = "") (hc : cacheGet cache (cacheKey word) = some u) :
    serveFromCache s cache word false = some u := by
  simp [serveFromCache, hc, hk]

lemma serveFromCache_marker (s : ImgSettings) (cache : ImgCache) (word : String) (u : String)
    (hc : cacheGet cache (cacheKey word) = some u)
    (hm : jsIncludes u "privateKey=" = true) :
    serveFromCache s cache word false = some u := by
  simp [serveFromCache, hc, hm]

lemma serveFromCache_stale (s : ImgSettings) (cache : ImgCache) (word : String) (u : String)
    (hk : ¬ s.pollinationsApiKey = "") (hc : cacheGet cache (cacheKey word) = some u)
    (hm : jsIncludes u "privateKey=" = false) :
    serveFromCache s cache word false = none := by
  simp [serveFromCache, hc, hm, hk]

lemma serveFromCache_empty (s : ImgSettings) (cache : ImgCache) (word : String)
    (forceRegenerate : Bool) (hc : cacheGet cache (cacheKey word) = none) :
    serveFromCache s cache word forceRegenerate = none := by
  cases forceRegenerate <;> simp [serveFromCache, hc]

lemma generateImage_served (s : ImgSettings) (env : ImgEnv) (cache : ImgCache)
    (word : String) (ctx : Option String) (forceRegenerate : Bool) (u : String)
    (h : serveFromCache s cache word forceRegenerate = some u) :
    generateImage s env cache word ctx forceRegenerate = ⟨u, cache, false⟩ := by
  simp [generateImage, h]

lemma generateImage_regen (s : ImgSettings) (env : ImgEnv) (cache : ImgCache)
    (word : String) (ctx : Option String) (forceRegenerate : Bool)
    (h : serveFromCache s cache word forceRegenerate = none) :
    generateImage s env cache word ctx forceRegenerate =
      ⟨(generateImageUnsafe s env word ctx forceRegenerate).url,
       if !((generateImageUnsafe s env word ctx forceRegenerate).url == "") &&
           jsStartsWith (generateImageUnsafe s env word ctx forceRegenerate).url "http"
       then cacheSet cache (cacheKey word) ((generateImageUnsafe s env word ctx forceRegenerate).url)
       else cache,
       true⟩ := by
  simp [generateImage, h]

lemma cacheGet_cacheSet (c : ImgCache) (k v : String) :
    cacheGet (cacheSet c k v) k = some v := by
  simp [cacheGet, cacheSet, List.find?]

lemma jsStartsWith_http_ne_empty (u : String) (h : jsStartsWith u "http" = true) :
    (u == "") = false := by
  rcases u with ⟨l⟩
  cases l with
  | nil => simp [jsStartsWith, List.isPrefixOf] at h
  | cons c cs =>
    rw [beq_eq_false_iff_ne]
    intro hco
    exact absurd (congrArg String.data hco) (by simp)

/-- Claim C6, counterexample: with a Pollinations key configured, the DeepAI
provider selected, an anonymous-tier entry cached for `cat`, and the adapter
answering with a `data:` URI, the stale entry does trigger a regeneration,
but no newly cached authenticated-tier entry results: the cache is unchanged
and still holds the markerless anonymous entry. -/
theorem c6_counterexample :
    (generateImage deepaiKeySettings dataUriEnvOne anonCatCache "cat" none false).regenerated
      = true ∧
    (generateImage deepaiKeySettings dataUriEnvOne anonCatCache "cat" none false).cache
      = anonCatCache ∧
    jsIncludes anonCachedUrl "privateKey=" = false := by
  refine ⟨by decide, by decide, by decide⟩

/-- Claim C6 (amended): on a non-forced request with a cached entry: with no
credential configured the entry is served regardless of tier; with a
credential configured it is served exactly when it carries the
authenticated-tier marker (`privateKey=`), and otherwise it is treated as
stale and exactly one regeneration is performed, whose result replaces the
cache entry only when it is an http(s) URL — any Pollinations-constructed
URL produced with the credential configured carries the marker, but a
`data:` URI result is not written and leaves the stale entry in place. -/
theorem c6_cache_tier :
    (∀ s env cache word ctx u, s.pollinationsApiKey = "" →
      cacheGet cache (cacheKey word) = some u →
      generateImage s env cache word ctx false = ⟨u, cache, false⟩) ∧
    (∀ s env cache word ctx u,
      cacheGet cache (cacheKey word) = some u → jsIncludes u "privateKey=" = true →
      generateImage s env cache word ctx false = ⟨u, cache, false⟩) ∧
    (∀ s env cache word ctx u, ¬ s.pollinationsApiKey = "" →
      cacheGet cache (cacheKey word) = some u → jsIncludes u "privateKey=" = false →
      (generateImage s env cache word ctx false).regenerated = true ∧
      (generateImage s env cache word ctx false).url =
        (generateImageUnsafe s env word ctx false).url ∧
      (jsStartsWith (generateImageUnsafe s env word ctx false).url "http" = true →
        cacheGet (generateImage s env cache word ctx false).cache (cacheKey word) =
          some ((generateImageUnsafe s env word ctx false).url)) ∧
      (jsStartsWith (generateImageUnsafe s env word ctx false).url "http" = false →
        (generateImage s env cache word ctx false).cache = cache)) ∧
    (∀ key prompt seed, ¬ key = "" →
      jsIncludes (getPollinationsUrl key prompt seed) "privateKey=" = true) := by
  refine ⟨?_, ?_, ?_, ?_⟩
  · intro s env cache word ctx u hk hc
    exact generateImage_served s env cache word ctx false u
      (serveFromCache_nokey s cache word u hk hc)
  · intro s env cache word ctx u hc hm
    exact generateImage_served s env cache word ctx false u
      (serveFromCache_marker s cache word u hc hm)
  · intro s env cache word ctx u hk hc hm
    have hserve := serveFromCache_stale s cache word u hk hc hm
    have hr := generateImage_regen s env cache word ctx false hserve
    refine ⟨by rw [hr], by rw [hr], ?_, ?_⟩
    · intro hhttp
      rw [hr]
      simp only [jsStartsWith_http_ne_empty _ hhttp, hhttp, Bool.not_false, Bool.and_self,
        if_pos]
      exact cacheGet_cacheSet cache (cacheKey word) _
    · intro hhttp
      rw [hr]
      simp [hhttp]
  · exact pollinations_url_marker

/-- Witness for claim C6 (amended) at concrete inputs: the anonymous cache
entry is served when no key is configured, served under a key when it has
the marker, treated as stale under a key without the marker, and a
key-bearing Pollinations URL always carries the marker. -/
theorem c6_cache_tier_witness :
    generateImage deepaiAnonSettings dataUriEnvOne anonCatCache "cat" none false =
      ⟨anonCachedUrl, anonCatCache, false⟩ ∧
    generateImage deepaiKeySettings dataUriEnvOne
        [(cacheKey "cat", anonCachedUrl ++ "&privateKey=sk-poll")] "cat" none false =
      ⟨anonCachedUrl ++ "&privateKey=sk-poll",
       [(cacheKey "cat", anonCachedUrl ++ "&privateKey=sk-poll")], false⟩ ∧
    (generateImage deepaiKeySettings dataUriEnvOne anonCatCache "cat" none false).regenerated
      = true ∧
    jsIncludes (getPollinationsUrl "sk-poll" "cat" 5) "privateKey=" = true :=
  ⟨c6_cache_tier.1 deepaiAnonSettings dataUriEnvOne anonCatCache "cat" none anonCachedUrl
      rfl (by decide),
   c6_cache_tier.2.1 deepaiKeySettings dataUriEnvOne
      [(cacheKey "cat", anonCachedUrl ++ "&privateKey=sk-poll")] "cat" none
      (anonCachedUrl ++ "&privateKey=sk-poll") (by decide) (by decide),
   ((c6_cache_tier.2.2.1 deepaiKeySettings dataUriEnvOne anonCatCache "cat" none
      anonCachedUrl (by decide) (by decide) (by decide)).1),
   c6_cache_tier.2.2.2 "sk-poll" "cat" 5 (by decide)⟩

/-! ## Claim C7 -/

/-- Claim C7, counterexample: two non-forced requests for the same headword
`cat` with different context sentences build different prompts, yet the
second request is served straight from the first request's cache entry (no
regeneration, identical artifact): the cache key ignores context and style,
so the two requests do not use distinct entries. -/
theorem c7_counterexample :
    buildPrompt "cat" (some "a black cat") VisualStyle.minimalist ≠
      buildPrompt "cat" (some "a white dog") VisualStyle.minimalist ∧
    (generateImage pollinationsSettings failingEnv
        ((generateImage pollinationsSettings failingEnv [] "cat" (some "a black cat") false).cache)
        "cat" (some "a white dog") false).regenerated = false ∧
    (generateImage pollinationsSettings failingEnv
        ((generateImage pollinationsSettings failingEnv [] "cat" (some "a black cat") false).cache)
        "cat" (some "a white dog") false).url =
      (generateImage pollinationsSettings failingEnv [] "cat" (some "a black cat") false).url := by
  have hserve0 : serveFromCache pollinationsSettings [] "cat" false = none :=
    serveFromCache_empty pollinationsSettings [] "cat" false rfl
  have hr1 := generateImage_regen pollinationsSettings failingEnv [] "cat"
    (some "a black cat") false hserve0
  have hu : (generateImageUnsafe pollinationsSettings failingEnv "cat"
      (some "a black cat") false).url =
      getPollinationsUrl "" (buildPrompt "cat" (some "a black cat") VisualStyle.minimalist)
        (stringToHash (buildPrompt "cat" (some "a black cat") VisualStyle.minimalist)) := rfl
  have hhttp : jsStartsWith (generateImageUnsafe pollinationsSettings failingEnv "cat"
      (some "a black cat") false).url "http" = true := by
    rw [hu]; exact pollinations_url_http _ _ _
  have hne := jsStartsWith_http_ne_empty _ hhttp
  have hget : cacheGet
      (generateImage pollinationsSettings failingEnv [] "cat" (some "a black cat") false).cache
      (cacheKey "cat") =
      some ((generateImageUnsafe pollinationsSettings failingEnv "cat"
        (some "a black cat") false).url) := by
    rw [hr1]
    simp [hne, hhttp, cacheGet_cacheSet]
  have hserve2 := serveFromCache_nokey pollinationsSettings
    (generateImage pollinationsSettings failingEnv [] "cat" (some "a black cat") false).cache
    "cat" (generateImageUnsafe pollinationsSettings failingEnv "cat"
      (some "a black cat") false).url rfl hget
  have hr2 := generateImage_served pollinationsSettings failingEnv
    (generateImage pollinationsSettings failingEnv [] "cat" (some "a black cat") false).cache
    "cat" (some "a white dog") false
    (generateImageUnsafe pollinationsSettings failingEnv "cat" (some "a black cat") false).url
    hserve2
  refine ⟨by decide, ?_, ?_⟩
  · rw [hr2]
  · rw [hr2, hr1]

/-- Claim C7 (amended): the image cache key is a normalized fingerprint of
the headword only — `img_` plus the lowercased, trimmed headword — so two
requests with the same normalized headword share one cache entry even when
their context sentence or visual style differ: with no credential
configured, a cached entry for the headword is served for a request with
any context and any style. -/
theorem c7_cache_key :
    (∀ word, cacheKey word = "img_" ++ jsTrim (jsToLower word)) ∧
    (∀ s env cache word ctx u, s.pollinationsApiKey = "" →
      cacheGet cache (cacheKey word) = some u →
      (generateImage s env cache word ctx false).url = u ∧
      (generateImage s env cache word ctx false).regenerated = false) := by
  refine ⟨fun word => rfl, ?_⟩
  intro s env cache word ctx u hk hc
  have h := generateImage_served s env cache word ctx false u
    (serveFromCache_nokey s cache word u hk hc)
  rw [h]
  exact ⟨rfl, rfl⟩

/-- Witness for claim C7 (amended): a concrete cache entry for `cat`
written under one context is served for a request with a different context
and a different style. -/
theorem c7_cache_key_witness :
    cacheKey " CAT " = "img_cat" ∧
    (generateImage
        { pollinationsSettings with visualStyle := VisualStyle.cyberpunk }
        failingEnv anonCatCache "cat" (some "a completely different sentence") false).url =
      anonCachedUrl :=
  ⟨by decide,
   (c7_cache_key.2 { pollinationsSettings with visualStyle := VisualStyle.cyberpunk }
      failingEnv anonCatCache "cat" (some "a completely different sentence") anonCachedUrl
      rfl (by decide)).1⟩

/-! ## Claim C8 -/

lemma round_trip_served (s : ImgSettings) (env env' : ImgEnv) (cache : ImgCache)
    (word : String) (ctx ctx' : Option String) (u : String)
    (hs : serveFromCache s cache word false = some u) :
    generateImage s env' (generateImage s env cache word ctx false).cache word ctx' false =
      generateImage s env cache word ctx false := by
  have hr1 := generateImage_served s env cache word ctx false u hs
  rw [hr1]
  exact generateImage_served s env' cache word ctx' false u hs

lemma round_trip_regen (s : ImgSettings) (env env' : ImgEnv) (cache : ImgCache)
    (word : String) (ctx : Option String)
    (hs : serveFromCache s cache word false = none)
    (hhttp : jsStartsWith (generateImageUnsafe s env word ctx false).url "http" = true)
    (hcond : s.pollinationsApiKey = "" ∨
      jsIncludes (generateImageUnsafe s env word ctx false).url "privateKey=" = true) :
    generateImage s env' (generateImage s env cache word ctx false).cache word ctx false =
      ⟨(generateImage s env cache word ctx false).url,
       (generateImage s env cache word ctx false).cache, false⟩ := by
  have hr1 := generateImage_regen s env cache word ctx false hs
  have hne := jsStartsWith_http_ne_empty _ hhttp
  have hcache : (generateImage s env cache word ctx false).cache =
      cacheSet cache (cacheKey word) ((generateImageUnsafe s env word ctx false).url) := by
    rw [hr1]
    simp [hne, hhttp]
  have hget := cacheGet_cacheSet cache (cacheKey word)
    ((generateImageUnsafe s env word ctx false).url)
  have hserve2 : serveFromCache s (cacheSet cache (cacheKey word)
      ((generateImageUnsafe s env word ctx false).url)) word false =
      some ((generateImageUnsafe s env word ctx false).url) := by
    rcases hcond with hk | hm
    · exact serveFromCache_nokey _ _ _ _ hk hget
    · exact serveFromCache_marker _ _ _ _ hget hm
  rw [hcache]
  have hr2 := generateImage_served s env' (cacheSet cache (cacheKey word)
    ((generateImageUnsafe s env word ctx false).url)) word ctx false
    ((generateImageUnsafe s env word ctx false).url) hserve2
  rw [hr2, hr1]

lemma pollinations_seed_choice (s : ImgSettings) (env : ImgEnv) (word : String)
    (ctx : Option String) (hp : s.imageProvider = ImageProvider.pollinations) :
    (generateImageUnsafe s env word ctx true).url =
      getPollinationsUrl s.pollinationsApiKey (buildPrompt word ctx s.visualStyle)
        env.randomSeed ∧
    (generateImageUnsafe s env word ctx false).url =
      getPollinationsUrl s.pollinationsApiKey (buildPrompt word ctx s.visualStyle)
        (stringToHash (buildPrompt word ctx s.visualStyle)) := by
  constructor <;> simp [generateImageUnsafe, hp]

lemma forced_bypasses_cache (s : ImgSettings) (env : ImgEnv) (cache : ImgCache)
    (word : String) (ctx : Option String) :
    (generateImage s env cache word ctx true).regenerated = true := by
  have h : serveFromCache s cache word true = none := rfl
  rw [generateImage_regen s env cache word ctx true h]

lemma pollinations_round_trip (s : ImgSettings) (env env' : ImgEnv) (cache : ImgCache)
    (word : String) (ctx : Option String) (hp : s.imageProvider = ImageProvider.pollinations) :
    (generateImage s env' (generateImage s env cache word ctx false).cache word ctx false).url =
      (generateImage s env cache word ctx false).url := by
  cases hs : serveFromCache s cache word false with
  | some u => rw [round_trip_served s env env' cache word ctx ctx u hs]
  | none =>
    have hu := (pollinations_seed_choice s env word ctx hp).2
    have hhttp : jsStartsWith (generateImageUnsafe s env word ctx false).url "http" = true := by
      rw [hu]; exact pollinations_url_http _ _ _
    have hcond : s.pollinationsApiKey = "" ∨
        jsIncludes (generateImageUnsafe s env word ctx false).url "privateKey=" = true := by
      by_cases hk : s.pollinationsApiKey = ""
      · exact Or.inl hk
      · exact Or.inr (by rw [hu]; exact pollinations_url_marker _ _ _ hk)
    rw [round_trip_regen s env env' cache word ctx hs hhttp hcond]

/-- Claim C8, counterexample: with the DeepAI provider selected (its results
are `data:` URIs, which are never cached), two identical non-forced requests
for `cat` — no forcing, no tier upgrade, no credential at all — return two
different artifact references when the backend answers the re-executed
second call with a different payload. -/
theorem c8_counterexample :
    (generateImage deepaiAnonSettings dataUriEnvOne [] "cat" none false).regenerated = true ∧
    (generateImage deepaiAnonSettings dataUriEnvTwo
        ((generateImage deepaiAnonSettings dataUriEnvOne [] "cat" none false).cache)
        "cat" none false).regenerated = true ∧
    (generateImage deepaiAnonSettings dataUriEnvTwo
        ((generateImage deepaiAnonSettings dataUriEnvOne [] "cat" none false).cache)
        "cat" none false).url ≠
      (generateImage deepaiAnonSettings dataUriEnvOne [] "cat" none false).url := by
  refine ⟨by decide, by decide, by decide⟩

/-- Claim C8 (amended): a forced request bypasses the cache read entirely
(it regenerates even when an entry is cached) and uses the fresh random
seed, while a non-forced generation derives its seed deterministically from
the prompt text; generating twice for an identical prompt without forcing
and without a tier upgrade returns the identical artifact reference
whenever the first artifact was cached (an http URL) and satisfies the
serve condition — in particular always under the Pollinations provider —
but not in general for providers whose artifacts are `data:` URIs, which
are never cached. -/
theorem c8_round_trip :
    (∀ s env cache word ctx, (generateImage s env cache word ctx true).regenerated = true) ∧
    (∀ s env word ctx, s.imageProvider = ImageProvider.pollinations →
      (generateImageUnsafe s env word ctx true).url =
        getPollinationsUrl s.pollinationsApiKey (buildPrompt word ctx s.visualStyle)
          env.randomSeed ∧
      (generateImageUnsafe s env word ctx false).url =
        getPollinationsUrl s.pollinationsApiKey (buildPrompt word ctx s.visualStyle)
          (stringToHash (buildPrompt word ctx s.visualStyle))) ∧
    (∀ s env env' cache word ctx,
      serveFromCache s cache word false = none →
      jsStartsWith (generateImageUnsafe s env word ctx false).url "http" = true →
      (s.pollinationsApiKey = "" ∨
        jsIncludes (generateImageUnsafe s env word ctx false).url "privateKey=" = true) →
      (generateImage s env' (generateImage s env cache word ctx false).cache word ctx false).url =
        (generateImage s env cache word ctx false).url) ∧
    (∀ s env env' cache word ctx, s.imageProvider = ImageProvider.pollinations →
      (generateImage s env' (generateImage s env cache word ctx false).cache word ctx false).url =
        (generateImage s env cache word ctx false).url) := by
  refine ⟨?_, ?_, ?_, ?_⟩
  · exact forced_bypasses_cache
  · exact pollinations_seed_choice
  · intro s env env' cache word ctx hs hhttp hcond
    rw [round_trip_regen s env env' cache word ctx hs hhttp hcond]
  · exact pollinations_round_trip

/-- Witness for claim C8 (amended) at concrete inputs: a forced request with
a cached entry still regenerates; the Pollinations provider uses the random
seed when forced and the prompt hash otherwise; and the Pollinations-backed
round trip returns the identical reference. -/
theorem c8_round_trip_witness :
    (generateImage pollinationsSettings failingEnv anonCatCache "cat" none true).regenerated
      = true ∧
    ((generateImageUnsafe pollinationsSettings ⟨Except.error ProviderFailure.other, 42⟩
        "cat" none true).url =
      getPollinationsUrl "" (buildPrompt "cat" none VisualStyle.minimalist) 42 ∧
     (generateImageUnsafe pollinationsSettings ⟨Except.error ProviderFailure.other, 42⟩
        "cat" none false).url =
      getPollinationsUrl "" (buildPrompt "cat" none VisualStyle.minimalist)
        (stringToHash (buildPrompt "cat" none VisualStyle.minimalist))) ∧
    (generateImage pollinationsSettings failingEnv
        ((generateImage pollinationsSettings failingEnv [] "cat" none false).cache)
        "cat" none false).url =
      (generateImage pollinationsSettings failingEnv [] "cat" none false).url :=
  ⟨c8_round_trip.1 pollinationsSettings failingEnv anonCatCache "cat" none,
   c8_round_trip.2.1 pollinationsSettings ⟨Except.error ProviderFailure.other, 42⟩
      "cat" none rfl,
   c8_round_trip.2.2.2 pollinationsSettings failingEnv failingEnv [] "cat" none rfl⟩

/-! ## Claim C10 -/

lemma generateImage_cache_no_http (s : ImgSettings) (env : ImgEnv) (cache : ImgCache)
    (word : String) (ctx : Option String) (forceRegenerate : Bool)
    (h : jsStartsWith (generateImageUnsafe s env word ctx forceRegenerate).url "http" = false) :
    (generateImage s env cache word ctx forceRegenerate).cache = cache := by
  cases hs : serveFromCache s cache word forceRegenerate with
  | some u => rw [generateImage_served s env cache word ctx forceRegenerate u hs]
  | none =>
    rw [generateImage_regen s env cache word ctx forceRegenerate hs]
    simp [h]

lemma generateImage_cache_write (s : ImgSettings) (env : ImgEnv) (cache : ImgCache)
    (word : String) (ctx : Option String) (forceRegenerate : Bool)
    (h : (generateImage s env cache word ctx forceRegenerate).regenerated = true) :
    (generateImage s env cache word ctx forceRegenerate).cache =
      (if !((generateImageUnsafe s env word ctx forceRegenerate).url == "") &&
          jsStartsWith (generateImageUnsafe s env word ctx forceRegenerate).url "http"
       then cacheSet cache (cacheKey word)
         ((generateImageUnsafe s env word ctx forceRegenerate).url)
       else cache) := by
  cases hs : serveFromCache s cache word forceRegenerate with
  | some u =>
    rw [generateImage_served s env cache word ctx forceRegenerate u hs] at h
    simp at h
  | none => rw [generateImage_regen s env cache word ctx forceRegenerate hs]

lemma generateImage_reexecutes (s : ImgSettings) (env env' : ImgEnv) (cache : ImgCache)
    (word : String) (ctx : Option String)
    (hc : cacheGet cache (cacheKey word) = none)
    (h : jsStartsWith (generateImageUnsafe s env word ctx false).url "http" = false) :
    (generateImage s env cache word ctx false).regenerated = true ∧
    (generateImage s env' (generateImage s env cache word ctx false).cache
      word ctx false).regenerated = true := by
  have hs := serveFromCache_empty s cache word false hc
  have hr1 := generateImage_regen s env cache word ctx false hs
  have hcache : (generateImage s env cache word ctx false).cache = cache := by
    rw [hr1]
    simp [h]
  constructor
  · rw [hr1]
  · rw [hcache]
    have hs2 := serveFromCache_empty s cache word false hc
    rw [generateImage_regen s env' cache word ctx false hs2]

/-- Claim C10: `generateImage` writes a cache entry only when the produced
artifact reference starts with `http`: on a regeneration the cache becomes
the guarded write of the code, a result that does not start with `http`
(in particular a `data:` URI from the Gemini, DeepAI-proxy or Hugging Face
branches) never changes the cache, and consequently repeated identical
non-forced requests under such a provider re-execute generation every time
instead of hitting the cache. -/
theorem c10_cache_http_only :
    (∀ s env cache word ctx forceRegenerate,
      jsStartsWith (generateImageUnsafe s env word ctx forceRegenerate).url "http" = false →
      (generateImage s env cache word ctx forceRegenerate).cache = cache) ∧
    (∀ s env cache word ctx forceRegenerate,
      (generateImage s env cache word ctx forceRegenerate).regenerated = true →
      (generateImage s env cache word ctx forceRegenerate).cache =
        (if !((generateImageUnsafe s env word ctx forceRegenerate).url == "") &&
            jsStartsWith (generateImageUnsafe s env word ctx forceRegenerate).url "http"
         then cacheSet cache (cacheKey word)
           ((generateImageUnsafe s env word ctx forceRegenerate).url)
         else cache)) ∧
    (∀ s env env' cache word ctx,
      cacheGet cache (cacheKey word) = none →
      jsStartsWith (generateImageUnsafe s env word ctx false).url "http" = false →
      (generateImage s env cache word ctx false).regenerated = true ∧
      (generateImage s env' (generateImage s env cache word ctx false).cache
        word ctx false).regenerated = true) :=
  ⟨fun s env cache word ctx f h => generateImage_cache_no_http s env cache word ctx f h,
   fun s env cache word ctx f h => generateImage_cache_write s env cache word ctx f h,
   fun s env env' cache word ctx hc h =>
     generateImage_reexecutes s env env' cache word ctx hc h⟩

/-- Witness for claim C10 at concrete inputs: the DeepAI `data:` URI result
leaves the cache empty and the identical follow-up request executes
generation again. -/
theorem c10_cache_http_only_witness :
    (generateImage deepaiAnonSettings dataUriEnvOne [] "cat" none false).cache = [] ∧
    (generateImage deepaiAnonSettings dataUriEnvOne [] "cat" none false).cache =
      (if !((generateImageUnsafe deepaiAnonSettings dataUriEnvOne "cat" none false).url == "") &&
          jsStartsWith (generateImageUnsafe deepaiAnonSettings dataUriEnvOne "cat" none false).url
            "http"
       then cacheSet [] (cacheKey "cat")
         ((generateImageUnsafe deepaiAnonSettings dataUriEnvOne "cat" none false).url)
       else []) ∧
    (generateImage deepaiAnonSettings dataUriEnvOne [] "cat" none false).regenerated = true ∧
    (generateImage deepaiAnonSettings dataUriEnvTwo
      (generateImage deepaiAnonSettings dataUriEnvOne [] "cat" none false).cache
      "cat" none false).regenerated = true :=
  ⟨c10_cache_http_only.1 deepaiAnonSettings dataUriEnvOne [] "cat" none false (by decide),
   c10_cache_http_only.2.1 deepaiAnonSettings dataUriEnvOne [] "cat" none false (by decide),
   (c10_cache_http_only.2.2 deepaiAnonSettings dataUriEnvOne dataUriEnvTwo [] "cat" none
     (by decide) (by decide)).1,
   (c10_cache_http_only.2.2 deepaiAnonSettings dataUriEnvOne dataUriEnvTwo [] "cat" none
     (by decide) (by decide)).2⟩

/-! ## Claim C3 -/

lemma mem_addMistake (m : List String) (a x : String) :
    x ∈ addMistake m a ↔ x = a ∨ x ∈ m := by
  unfold addMistake
  split
  · rename_i h
    have ha : a ∈ m := by simpa using h
    constructor
    · exact Or.inr
    · rintro (rfl | hx)
      · exact ha
      · exact hx
  · simp [List.mem_cons]

lemma addMistake_mono (m : List String) (a x : String) (h : x ∈ m) :
    x ∈ addMistake m a :=
  (mem_addMistake m a x).2 (Or.inr h)

lemma handleCardClick_words (s : MatchState) (c : MatchCard) :
    (handleCardClick s c).words = s.words := by
  unfold handleCardClick
  split
  · rfl
  · split <;> try split
    all_goals rfl

lemma handleCardClick_completed (s : MatchState) (c : MatchCard) :
    (handleCardClick s c).completed = s.completed := by
  unfold handleCardClick
  split
  · rfl
  · split <;> try split
    all_goals rfl

lemma handleCardClick_mistakes_mono (s : MatchState) (c : MatchCard) (x : String)
    (h : x ∈ s.mistakes) : x ∈ (handleCardClick s c).mistakes := by
  unfold handleCardClick
  split
  · exact h
  · split
    · exact h
    · split
      · exact h
      · exact addMistake_mono _ _ _ (addMistake_mono _ _ _ h)

lemma resolvePending_words (s : MatchState) : (resolvePending s).words = s.words := by
  unfold resolvePending
  split
  · rfl
  · split <;> rfl

lemma resolvePending_mistakes (s : MatchState) : (resolvePending s).mistakes = s.mistakes := by
  unfold resolvePending
  split
  · rfl
  · split <;> rfl

lemma stepMatch_words (s : MatchState) (e : MEvent) : (stepMatch s e).words = s.words := by
  unfold stepMatch
  split
  · rfl
  · cases e with
    | click cid =>
      simp only []
      split
      · exact handleCardClick_words _ _
      · rfl
    | fire => exact resolvePending_words s

lemma stepMatch_mistakes_mono (s : MatchState) (e : MEvent) (x : String)
    (h : x ∈ s.mistakes) : x ∈ (stepMatch s e).mistakes := by
  unfold stepMatch
  split
  · exact h
  · cases e with
    | click cid =>
      simp only []
      split
      · exact handleCardClick_mistakes_mono _ _ _ h
      · exact h
    | fire => rw [resolvePending_mistakes]; exact h

lemma runSession_words (s : MatchState) (evts : List MEvent) :
    (runSession s evts).words = s.words := by
  induction evts generalizing s with
  | nil => rfl
  | cons e evts ih =>
    show (runSession (stepMatch s e) evts).words = s.words
    rw [ih (stepMatch s e), stepMatch_words]

lemma runSession_mistakes_mono (s : MatchState) (evts : List MEvent) (x : String)
    (h : x ∈ s.mistakes) : x ∈ (runSession s evts).mistakes := by
  induction evts generalizing s with
  | nil => exact h
  | cons e evts ih =>
    exact ih (stepMatch s e) (stepMatch_mistakes_mono s e x h)

lemma resolvePending_inv (s : MatchState) (hnone : s.completed = none) :
    sessionInv (resolvePending s) := by
  intro res hres
  rw [resolvePending_words, resolvePending_mistakes]
  unfold resolvePending at hres
  cases hp : s.pending with
  | none =>
    rw [hp] at hres
    dsimp at hres
    rw [hnone] at hres
    cases hres
  | some p =>
    obtain ⟨im, id1, id2⟩ := p
    rw [hp] at hres
    cases im with
    | true =>
      simp only [if_true] at hres
      rw [hnone] at hres
      split at hres
      · cases hres
        rfl
      · cases hres
    | false =>
      simp only [Bool.false_eq_true, if_false] at hres
      rw [hnone] at hres
      cases hres

lemma stepMatch_inv (s : MatchState) (e : MEvent) (h : sessionInv s) :
    sessionInv (stepMatch s e) := by
  unfold stepMatch
  split
  · exact h
  · rename_i hns
    have hnone : s.completed = none := by
      cases hc : s.completed
      · rfl
      · rw [hc] at hns; simp at hns
    cases e with
    | click cid =>
      cases hf : s.cards.find? (fun c => c.id == cid) with
      | some card =>
        simp only [hf]
        intro res hres
        rw [handleCardClick_completed, hnone] at hres
        cases hres
      | none =>
        simp only [hf]
        exact h
    | fire => exact resolvePending_inv s hnone

lemma sessionInv_of_none (s : MatchState) (h : s.completed = none) : sessionInv s := by
  intro res hres
  rw [h] at hres
  cases hres

lemma runSession_inv (s : MatchState) (evts : List MEvent) (h : sessionInv s) :
    sessionInv (runSession s evts) := by
  induction evts generalizing s with
  | nil => exact h
  | cons e evts ih => exact ih (stepMatch s e) (stepMatch_inv s e h)

lemma handleCardClick_wrong (s : MatchState) (clicked sel : MatchCard)
    (hp : s.processing = false) (hst : clicked.state = CardState.default)
    (hsel : s.cards.find? (fun c => c.state == CardState.selected) = some sel)
    (hne : sel.wordId ≠ clicked.wordId) :
    (handleCardClick s clicked).mistakes =
      addMistake (addMistake s.mistakes sel.wordId) clicked.wordId ∧
    (∀ x, x ∈ (handleCardClick s clicked).mistakes ↔
      x ∈ s.mistakes ∨ x = sel.wordId ∨ x = clicked.wordId) := by
  have hcond : (s.processing || clicked.state == CardState.matched ||
      clicked.state == CardState.wrong || clicked.state == CardState.selected ||
      clicked.state == CardState.correct) = false := by
    rw [hp, hst]; decide
  have hbe : (sel.wordId == clicked.wordId) = false := beq_eq_false_iff_ne.2 hne
  have hmist : (handleCardClick s clicked).mistakes =
      addMistake (addMistake s.mistakes sel.wordId) clicked.wordId := by
    unfold handleCardClick
    rw [hcond]
    simp only [Bool.false_eq_true, if_false, hsel, hbe]
  refine ⟨hmist, ?_⟩
  intro x
  rw [hmist, mem_addMistake, mem_addMistake]
  tauto

lemma handleCardClick_match (s : MatchState) (clicked sel : MatchCard)
    (hp : s.processing = false) (hst : clicked.state = CardState.default)
    (hsel : s.cards.find? (fun c => c.state == CardState.selected) = some sel)
    (heq : sel.wordId = clicked.wordId) :
    (handleCardClick s clicked).mistakes = s.mistakes ∧
    (resolvePending (handleCardClick s clicked)).mistakes = s.mistakes ∧
    (∀ c ∈ (resolvePending (handleCardClick s clicked)).cards,
      (c.id = sel.id ∨ c.id = clicked.id) → c.state = CardState.matched) := by
  have hcond : (s.processing || clicked.state == CardState.matched ||
      clicked.state == CardState.wrong || clicked.state == CardState.selected ||
      clicked.state == CardState.correct) = false := by
    rw [hp, hst]; decide
  have hbe : (sel.wordId == clicked.wordId) = true := beq_iff_eq.2 heq
  have hclick : handleCardClick s clicked =
      { s with
          processing := true
          cards := s.cards.map (fun c =>
            if c.id == clicked.id || c.id == sel.id then { c with state := CardState.correct }
            else c)
          pending := some (true, sel.id, clicked.id) } := by
    unfold handleCardClick
    rw [hcond]
    simp only [Bool.false_eq_true, if_false, hsel, hbe, if_true]
  refine ⟨by rw [hclick], by rw [resolvePending_mistakes, hclick], ?_⟩
  intro c hc hid
  rw [hclick] at hc
  have hcards : (resolvePending
      { s with
          processing := true
          cards := s.cards.map (fun c =>
            if c.id == clicked.id || c.id == sel.id then { c with state := CardState.correct }
            else c)
          pending := some (true, sel.id, clicked.id) }).cards =
      (s.cards.map (fun c =>
        if c.id == clicked.id || c.id == sel.id then { c with state := CardState.correct }
        else c)).map (fun c =>
          if c.id == sel.id || c.id == clicked.id then { c with state := CardState.matched }
          else c) := rfl
  rw [hcards] at hc
  obtain ⟨c1, hc1, rfl⟩ := List.mem_map.1 hc
  by_cases h1 : (c1.id == sel.id || c1.id == clicked.id) = true
  · simp [h1]
  · exfalso
    have hkeep : (if c1.id == sel.id || c1.id == clicked.id
        then { c1 with state := CardState.matched } else c1) = c1 := by
      simp [h1]
    rw [hkeep] at hid
    rcases hid with hid | hid <;> simp [hid] at h1

lemma completed_formula (s : MatchState) (evts : List MEvent) (res : List (String × Bool))
    (hnone : s.completed = none) (hres : (runSession s evts).completed = some res) :
    res = s.words.map
      (fun w => (w.id, !((runSession s evts).mistakes.contains w.id))) := by
  have hinv := runSession_inv s evts (sessionInv_of_none s hnone)
  have hform := hinv res hres
  rw [runSession_words] at hform
  exact hform

lemma completed_once_mistaken (s : MatchState) (evts : List MEvent)
    (res : List (String × Bool)) (w : Word) (hnone : s.completed = none)
    (hw : w ∈ s.words) (hm : w.id ∈ s.mistakes)
    (hres : (runSession s evts).completed = some res) : (w.id, false) ∈ res := by
  have hform := completed_formula s evts res hnone hres
  have hmem : w.id ∈ (runSession s evts).mistakes := runSession_mistakes_mono s evts w.id hm
  have hcontain : (runSession s evts).mistakes.contains w.id = true := by
    simpa [List.contains] using List.elem_eq_true_of_mem hmem
  rw [hform]
  refine List.mem_map.2 ⟨w, hw, ?_⟩
  rw [hcontain]
  rfl

/-- Claim C3: in pairing mode, selecting two cards with different item ids
records both *item ids* in the session-wide mistake set (set-union
semantics) and ids are never removed by any later event; selecting two
cards with the same item id records no mistake and, once the pending
timeout fires, removes both cards from the active grid (state `matched`);
at completion the outcome list has one outcome per session word with
`correct` exactly when the word id is not in the mistake set, so an item
once mismatched reports incorrect even if its pair is later matched
correctly. -/
theorem c3_match_scoring :
    (∀ s clicked sel, s.processing = false → clicked.state = CardState.default →
      s.cards.find? (fun c => c.state == CardState.selected) = some sel →
      sel.wordId ≠ clicked.wordId →
      ((handleCardClick s clicked).mistakes =
        addMistake (addMistake s.mistakes sel.wordId) clicked.wordId ∧
       ∀ x, x ∈ (handleCardClick s clicked).mistakes ↔
         x ∈ s.mistakes ∨ x = sel.wordId ∨ x = clicked.wordId)) ∧
    (∀ s clicked sel, s.processing = false → clicked.state = CardState.default →
      s.cards.find? (fun c => c.state == CardState.selected) = some sel →
      sel.wordId = clicked.wordId →
      ((handleCardClick s clicked).mistakes = s.mistakes ∧
       (resolvePending (handleCardClick s clicked)).mistakes = s.mistakes ∧
       ∀ c ∈ (resolvePending (handleCardClick s clicked)).cards,
         (c.id = sel.id ∨ c.id = clicked.id) → c.state = CardState.matched)) ∧
    (∀ s evts x, x ∈ s.mistakes → x ∈ (runSession s evts).mistakes) ∧
    (∀ s evts res, s.completed = none → (runSession s evts).completed = some res →
      res = s.words.map
        (fun w => (w.id, !((runSession s evts).mistakes.contains w.id)))) ∧
    (∀ s evts res w, s.completed = none → w ∈ s.words → w.id ∈ s.mistakes →
      (runSession s evts).completed = some res → (w.id, false) ∈ res) :=
  ⟨fun s clicked sel hp hst hsel hne => handleCardClick_wrong s clicked sel hp hst hsel hne,
   fun s clicked sel hp hst hsel heq => handleCardClick_match s clicked sel hp hst hsel heq,
   fun s evts x h => runSession_mistakes_mono s evts x h,
   fun s evts res hnone hres => completed_formula s evts res hnone hres,
   fun s evts res w hnone hw hm hres => completed_once_mistaken s evts res w hnone hw hm hres⟩

/-- Witness for claim C3 on the concrete three-word scenario: mismatching
item 1 against item 2 once and then matching every pair correctly yields
outcomes where items 1 and 2 are incorrect and item 3 is correct; the first
mismatch click records exactly both word ids; and the once-mistaken property
applied after the mismatch forces the incorrect outcome for item 1. -/
theorem c3_match_scoring_witness :
    (runSession (initialMatchState [wordA, wordB, wordC]) scenarioEvents).completed =
      some [("1", false), ("2", false), ("3", true)] ∧
    (handleCardClick (runSession (initialMatchState [wordA, wordB, wordC])
        [MEvent.click "pl-1"]) ⟨"en-2", "2", "cat", CardState.default⟩).mistakes =
      addMistake (addMistake (runSession (initialMatchState [wordA, wordB, wordC])
        [MEvent.click "pl-1"]).mistakes "1") "2" ∧
    ("1", false) ∈ [(("1", false) : String × Bool), ("2", false), ("3", true)] :=
  ⟨by decide,
   (c3_match_scoring.1
     (runSession (initialMatchState [wordA, wordB, wordC]) [MEvent.click "pl-1"])
     ⟨"en-2", "2", "cat", CardState.default⟩
     ⟨"pl-1", "1", "dom", CardState.selected⟩
     (by decide) rfl (by decide) (by decide)).1,
   c3_match_scoring.2.2.2.2
     (runSession (initialMatchState [wordA, wordB, wordC])
       [MEvent.click "pl-1", MEvent.click "en-2"])
     [MEvent.fire, MEvent.click "pl-1", MEvent.click "en-1", MEvent.fire,
      MEvent.click "pl-2", MEvent.click "en-2", MEvent.fire,
      MEvent.click "pl-3", MEvent.click "en-3", MEvent.fire]
     [("1", false), ("2", false), ("3", true)] wordA
     (by decide) (by decide) (by decide) (by decide)⟩
